import Mathlib

/-!
Verification of the i386 structured-exception dispatch and unwind core
(base/ntos/rtl/i386/exdsptch.c): RtlIsValidHandler, RtlDispatchException
and RtlUnwind, shallowly embedded over a 32-bit flat address model.

Addresses and ULONG values are Nat, reduced mod 2^32 exactly where the C
code can overflow.  External collaborators (RtlpGetStackLimits,
RtlLookupFunctionTable, KeGetCurrentIrql, the PRCB, the two handler
trampolines) are environment parameters; a handler invocation is an
oracle indexed by the invocation count, receiving the observable state
the handler can read (the exception flags, and for unwind the working
record and context) and returning the disposition, the record flags it
leaves behind, and the DISPATCHER_CONTEXT registration pointer it may
write.  RtlRaiseException / ZwContinue / ZwRaiseException do not return;
they are terminal outcomes of the state machine.  The loops are driven
by fuel; fuel exhaustion is a distinguished outcome, never a return.
-/

def U32 : Nat := 4294967296

/-- EXCEPTION_CHAIN_END is ((PEXCEPTION_REGISTRATION_RECORD)-1). -/
def EXCEPTION_CHAIN_END : Nat := 4294967295

def DISPATCH_LEVEL : Nat := 2

/-- KERNEL_STACK_SIZE on i386 is 12288 bytes (three pages). -/
def KERNEL_STACK_SIZE : Nat := 12288

def STATUS_NONCONTINUABLE_EXCEPTION : Nat := 0xC0000025
def STATUS_INVALID_DISPOSITION : Nat := 0xC0000026
def STATUS_UNWIND : Nat := 0xC0000027
def STATUS_BAD_STACK : Nat := 0xC0000028
def STATUS_INVALID_UNWIND_TARGET : Nat := 0xC0000029

/-- EXCEPTION_DISPOSITION enumeration values. -/
def ExceptionContinueExecution : Nat := 0
def ExceptionContinueSearch : Nat := 1
def ExceptionNestedException : Nat := 2
def ExceptionCollidedUnwind : Nat := 3

/-- The exception-record flag bits the core reads or writes, as named
booleans (EXCEPTION_NONCONTINUABLE 0x1, EXCEPTION_UNWINDING 0x2,
EXCEPTION_EXIT_UNWIND 0x4, EXCEPTION_STACK_INVALID 0x8,
EXCEPTION_NESTED_CALL 0x10). -/
structure EFlags where
  noncontinuable : Bool
  unwinding : Bool
  exitUnwind : Bool
  stackInvalid : Bool
  nestedCall : Bool
deriving DecidableEq, Repr

def noFlags : EFlags := ⟨false, false, false, false, false⟩

/-- Flags of a freshly built record whose ExceptionFlags field is set to
EXCEPTION_NONCONTINUABLE. -/
def nonContFlags : EFlags := ⟨true, false, false, false, false⟩

def setStackInvalid (f : EFlags) : EFlags := { f with stackInvalid := true }

def clearNestedCall (f : EFlags) : EFlags := { f with nestedCall := false }

def setNestedCall (f : EFlags) : EFlags := { f with nestedCall := true }

def setUnwinding (f : EFlags) : EFlags := { f with unwinding := true }

def setExitUnwind (f : EFlags) : EFlags := { f with exitUnwind := true }

/-- EXCEPTION_REGISTRATION_RECORD: the two fields the core reads. -/
structure RegRecord where
  next : Nat
  handler : Nat
deriving DecidableEq, Repr

/-- The slice of a CONTEXT the unwind driver writes: Esp (adjusted to pop
the four arguments), Eax (the return value) and an opaque token for the
rest of the captured state. -/
structure Ctx where
  esp : Nat
  eax : Nat
  rest : Nat
deriving DecidableEq, Repr

/-- Working EXCEPTION_RECORD content tracked by the model: code and flags. -/
structure ERec where
  code : Nat
  flags : EFlags
deriving DecidableEq, Repr

/-- A freshly raised record: code, flags, NumberParameters, and whether
its ExceptionRecord field points at the working exception record. -/
structure RaisedRec where
  code : Nat
  flags : EFlags
  nParams : Nat
  innerIsWorking : Bool
deriving DecidableEq, Repr

/-- Result of one handler invocation through
RtlpExecuteHandlerForException: the disposition, the exception-record
flags after the handler ran, and the DISPATCHER_CONTEXT registration
pointer the handler may have written. -/
structure HandlerResult where
  disposition : Nat
  newFlags : EFlags
  dcReg : Nat
deriving DecidableEq, Repr

/-- Result of one handler invocation through
RtlpExecuteHandlerForUnwind. -/
structure UHandlerResult where
  disposition : Nat
  newFlags : EFlags
  newCtx : Ctx
  dcReg : Nat
deriving DecidableEq, Repr

/-- External environment: registration-record memory, the
RtlIsValidHandler verdict per handler address, IRQL, the PRCB DPC state,
and the two handler oracles (indexed by invocation count). -/
structure Env where
  mem : Nat → RegRecord
  validHandler : Nat → Bool
  irql : Nat
  dpcActive : Bool
  dpcStack : Nat
  excHandler : Nat → EFlags → HandlerResult
  uwHandler : Nat → ERec → Ctx → UHandlerResult

/-- ULONG subtraction a - b mod 2^32. -/
def usub32 (a b : Nat) : Nat := (a % U32 + (U32 - b % U32)) % U32

/-- DpcStack - KERNEL_STACK_SIZE, the low bound of the alternate stack. -/
def dpcLow (env : Env) : Nat := usub32 env.dpcStack KERNEL_STACK_SIZE

/-- HighAddress = (ULONG)RegistrationPointer + sizeof(EXCEPTION_REGISTRATION_RECORD). -/
def frameHigh (reg : Nat) : Nat := (reg + 8) % U32

/-- The frame check that guards handler invocation: frame below the low
limit, frame end above the high limit, or frame not 4-byte aligned. -/
def boundsBad (low high reg : Nat) : Prop :=
  reg < low ∨ frameHigh reg > high ∨ reg % 4 ≠ 0

instance (low high reg : Nat) : Decidable (boundsBad low high reg) := by
  unfold boundsBad; infer_instance

/-- The DPC-stack fallback condition: frame aligned, IRQL at or above
DISPATCH_LEVEL, a DPC routine active, and the frame inside the one
KERNEL_STACK_SIZE region below the DPC stack top. -/
def dpcOk (env : Env) (reg : Nat) : Prop :=
  reg % 4 = 0 ∧ env.irql ≥ DISPATCH_LEVEL ∧ env.dpcActive = true ∧
  frameHigh reg ≤ env.dpcStack ∧ reg ≥ dpcLow env

instance (env : Env) (reg : Nat) : Decidable (dpcOk env reg) := by
  unfold dpcOk; infer_instance

/-- Loop state of RtlDispatchException.  trace records each handler
invocation as (frame address, flags passed to the handler); subs counts
DPC-stack bound substitutions. -/
structure DState where
  reg : Nat
  nested : Nat
  low : Nat
  high : Nat
  flags : EFlags
  calls : Nat
  subs : Nat
  trace : List (Nat × EFlags)
deriving DecidableEq, Repr

inductive DOutcome where
  | ret (completion : Bool) (s : DState)
  | raisedEx (r : RaisedRec) (s : DState)
  | outOfFuel
deriving DecidableEq, Repr

inductive DStep where
  | next (s : DState)
  | stop (o : DOutcome)
deriving DecidableEq, Repr

/-- One iteration of the RtlDispatchException while loop (source lines
184-355), including the loop-exit test itself. -/
def dispatchStep (env : Env) (s : DState) : DStep :=
  if s.reg = EXCEPTION_CHAIN_END then
    DStep.stop (DOutcome.ret false s)
  else if boundsBad s.low s.high s.reg then
    (if dpcOk env s.reg then
      DStep.next { s with low := dpcLow env, high := env.dpcStack, subs := s.subs + 1 }
    else
      DStep.stop (DOutcome.ret false { s with flags := setStackInvalid s.flags }))
  else if env.validHandler (env.mem s.reg).handler = false then
    DStep.stop (DOutcome.ret false { s with flags := setStackInvalid s.flags })
  else
    let hr := env.excHandler s.calls s.flags
    let s1 : DState := { s with
      calls := s.calls + 1
      flags := hr.newFlags
      trace := s.trace ++ [(s.reg, s.flags)] }
    let s2 : DState :=
      if s1.nested = s1.reg then
        { s1 with flags := clearNestedCall s1.flags, nested := 0 }
      else s1
    if hr.disposition = ExceptionContinueExecution then
      (if s2.flags.noncontinuable = true then
        DStep.stop (DOutcome.raisedEx
          ⟨STATUS_NONCONTINUABLE_EXCEPTION, nonContFlags, 0, true⟩ s2)
      else
        DStep.stop (DOutcome.ret true s2))
    else if hr.disposition = ExceptionContinueSearch then
      (if s2.flags.stackInvalid = true then
        DStep.stop (DOutcome.ret false s2)
      else
        DStep.next { s2 with reg := (env.mem s2.reg).next })
    else if hr.disposition = ExceptionNestedException then
      let s3 : DState := { s2 with flags := setNestedCall s2.flags }
      let s4 : DState := if hr.dcReg > s3.nested then { s3 with nested := hr.dcReg } else s3
      DStep.next { s4 with reg := (env.mem s4.reg).next }
    else
      DStep.stop (DOutcome.raisedEx
        ⟨STATUS_INVALID_DISPOSITION, nonContFlags, 0, true⟩ s2)

def dispatchLoop (env : Env) : Nat → DState → DOutcome
  | 0, _ => DOutcome.outOfFuel
  | fuel + 1, s =>
    match dispatchStep env s with
    | DStep.next s' => dispatchLoop env fuel s'
    | DStep.stop o => o

/-- RtlDispatchException: start at the registration head with the primary
stack limits and no nested registration. -/
def rtlDispatchException (env : Env) (head low high : Nat) (flags0 : EFlags)
    (fuel : Nat) : DOutcome :=
  dispatchLoop env fuel ⟨head, 0, low, high, flags0, 0, 0, []⟩

def finalStateD : DOutcome → Option DState
  | DOutcome.ret _ s => some s
  | DOutcome.raisedEx _ s => some s
  | DOutcome.outOfFuel => none

/-- Loop state of RtlUnwind.  rec is the working exception record, ctx
the context record; unlinked records RtlpUnlinkHandler calls in order;
trace records the frame addresses whose handlers were invoked. -/
structure UState where
  reg : Nat
  low : Nat
  high : Nat
  erec : ERec
  ctx : Ctx
  calls : Nat
  subs : Nat
  unlinked : List Nat
  trace : List Nat
deriving DecidableEq, Repr

inductive UOutcome where
  | continued (c : Ctx) (s : UState)
  | raisedSys (r : ERec) (c : Ctx) (s : UState)
  | raisedUw (r : RaisedRec) (s : UState)
  | outOfFuel
deriving DecidableEq, Repr

inductive UStep where
  | next (s : UState)
  | stop (o : UOutcome)
deriving DecidableEq, Repr

/-- One iteration of the RtlUnwind while loop (source lines 499-653),
including the loop-exit test and the post-loop continue/raise choice
(lines 655-677).  continued models ZwContinue(ctx, FALSE), raisedSys
models ZwRaiseException(rec, ctx, FALSE), raisedUw models
RtlRaiseException of a fresh record; none of the three returns. -/
def unwindStep (env : Env) (target : Nat) (s : UState) : UStep :=
  if s.reg = EXCEPTION_CHAIN_END then
    UStep.stop (if target = EXCEPTION_CHAIN_END then UOutcome.continued s.ctx s
                else UOutcome.raisedSys s.erec s.ctx s)
  else if s.reg = target then
    UStep.stop (UOutcome.continued s.ctx s)
  else if target ≠ 0 ∧ target < s.reg then
    UStep.stop (UOutcome.raisedUw
      ⟨STATUS_INVALID_UNWIND_TARGET, nonContFlags, 0, true⟩ s)
  else if boundsBad s.low s.high s.reg then
    (if dpcOk env s.reg then
      UStep.next { s with low := dpcLow env, high := env.dpcStack, subs := s.subs + 1 }
    else
      UStep.stop (UOutcome.raisedUw ⟨STATUS_BAD_STACK, nonContFlags, 0, true⟩ s))
  else
    let hr := env.uwHandler s.calls s.erec s.ctx
    let s1 : UState := { s with
      calls := s.calls + 1
      erec := ⟨s.erec.code, hr.newFlags⟩
      ctx := hr.newCtx
      trace := s.trace ++ [s.reg] }
    if hr.disposition = ExceptionContinueSearch then
      UStep.next { s1 with
        reg := (env.mem s1.reg).next
        unlinked := s1.unlinked ++ [s1.reg] }
    else if hr.disposition = ExceptionCollidedUnwind then
      UStep.next { s1 with
        reg := (env.mem hr.dcReg).next
        unlinked := s1.unlinked ++ [hr.dcReg] }
    else
      UStep.stop (UOutcome.raisedUw
        ⟨STATUS_INVALID_DISPOSITION, nonContFlags, 0, true⟩ s1)

def unwindLoop (env : Env) (target : Nat) : Nat → UState → UOutcome
  | 0, _ => UOutcome.outOfFuel
  | fuel + 1, s =>
    match unwindStep env target s with
    | UStep.next s' => unwindLoop env target fuel s'
    | UStep.stop o => o

/-- RtlUnwind entry: synthesize the working record when none is given,
OR the unwinding (and, without a target, exit-unwind) flags, capture and
adjust the context (Esp popped by the four word-sized arguments, Eax set
to the return value), then run the loop from the registration head.
targetIp is accepted and ignored, as in the source. -/
def rtlUnwind (env : Env) (targetFrame _targetIp : Nat) (excRec : Option ERec)
    (returnValue : Nat) (head low high capturedEsp ctxRest fuel : Nat) : UOutcome :=
  let rec0 : ERec := match excRec with
    | Option.none => ⟨STATUS_UNWIND, noFlags⟩
    | Option.some r => r
  let rec1 : ERec := ⟨rec0.code,
    if targetFrame ≠ 0 then setUnwinding rec0.flags
    else setUnwinding (setExitUnwind rec0.flags)⟩
  let ctx0 : Ctx := ⟨(capturedEsp + 16) % U32, returnValue % U32, ctxRest⟩
  unwindLoop env targetFrame fuel ⟨head, low, high, rec1, ctx0, 0, 0, [], []⟩

def finalStateU : UOutcome → Option UState
  | UOutcome.continued _ s => some s
  | UOutcome.raisedSys _ _ s => some s
  | UOutcome.raisedUw _ s => some s
  | UOutcome.outOfFuel => none

/-- LONG value of a ULONG: two's-complement reinterpretation. -/
def int32 (x : Nat) : Int :=
  if x % U32 < 2147483648 then ((x % U32 : Nat) : Int)
  else ((x % U32 : Nat) : Int) - (U32 : Int)

/-- Result of RtlLookupFunctionTable: the table pointer (0 when no table
is registered), the image base, the table length, and the table memory
as a function from index to entry value.  Reads past the registered
length are reads of whatever follows the table in memory; the model
makes them total via this function. -/
structure FtLookup where
  tablePtr : Nat
  base : Nat
  length : Nat
  entry : Nat → Nat

/-- The binary-search loop of RtlIsValidHandler (source lines 104-115),
driven by fuel.  Low, High and Middle are LONGs; Middle = (Low+High)>>1
is the arithmetic shift, which on the nonnegative sums arising here is
(Low+High)/2 with truncation.  Fuel exhaustion returns false and is
never reached from rtlIsValidHandler, whose fuel exceeds the iteration
bound. -/
def bsearchGo (entry : Nat → Nat) (h : Nat) : Nat → Int → Int → Bool
  | 0, _, _ => false
  | fuel + 1, low, high =>
    if high ≥ low then
      let mid : Nat := (low + high).toNat / 2
      if h < entry mid then bsearchGo entry h fuel low ((mid : Int) - 1)
      else if entry mid < h then bsearchGo entry h fuel ((mid : Int) + 1) high
      else true
    else false

/-- The biased handler value: (ULONG)Handler -= (ULONG)Base. -/
def biasedHandler (ft : FtLookup) (handler : Nat) : Nat :=
  (handler % U32 + (U32 - ft.base % U32)) % U32

/-- RtlIsValidHandler (source lines 77-124).  No registered table (null
pointer or zero length) means the handler cannot be verified and is
accepted; the all-ones sentinel table means the image can host no
handlers and the handler is rejected; otherwise the handler is biased by
the image base and binary-searched, with Low starting at 0 and High at
FunctionTableLength. -/
def rtlIsValidHandler (ft : FtLookup) (handler : Nat) : Bool :=
  if ft.tablePtr ≠ 0 ∧ ft.length ≠ 0 then
    if ft.tablePtr = 4294967295 ∧ ft.length = 4294967295 then
      false
    else
      bsearchGo ft.entry (biasedHandler ft handler) (ft.length + 2) 0 (int32 ft.length)
  else
    true

/-- Shared trivial environment for concrete witnesses: a one-node-free
chain (every record points at the chain end), all handlers valid, passive
IRQL, handlers that continue the search. -/
def envTriv : Env := {
  mem := fun _ => ⟨EXCEPTION_CHAIN_END, 7⟩
  validHandler := fun _ => true
  irql := 0
  dpcActive := false
  dpcStack := 0
  excHandler := fun _ f => ⟨ExceptionContinueSearch, f, 0⟩
  uwHandler := fun _ r c => ⟨ExceptionContinueSearch, r.flags, c, 0⟩ }

/-- Environment whose first exception handler returns ContinueExecution
and preserves the record flags. -/
def envC6 : Env := { envTriv with excHandler := fun _ f => ⟨ExceptionContinueExecution, f, 0⟩ }

/-- Flags with only EXCEPTION_NESTED_CALL set. -/
def nestedCallFlags : EFlags := ⟨false, false, false, false, true⟩

/-- Environment for the three-handler nested-exception scenario: chain
4096 -> 4352 -> 4608 -> CHAIN_END; the first handler reports
NestedException naming 4608, the second continues the search, the third
continues execution; each leaves the record flags as it found them. -/
def envC5 : Env := { envTriv with
  mem := fun a => if a = 4096 then ⟨4352, 7⟩ else if a = 4352 then ⟨4608, 7⟩
    else if a = 4608 then ⟨EXCEPTION_CHAIN_END, 7⟩ else ⟨0, 0⟩
  excHandler := fun i f => if i = 0 then ⟨ExceptionNestedException, f, 4608⟩
    else if i = 1 then ⟨ExceptionContinueSearch, f, 0⟩
    else ⟨ExceptionContinueExecution, f, 0⟩ }

/-- Environment running on the DPC stack: IRQL at DISPATCH_LEVEL, DPC
routine active, DPC stack top 32768, so the alternate region is
[20480, 32768]. -/
def envC7 : Env := { envTriv with
  mem := fun a => if a = 20480 then ⟨EXCEPTION_CHAIN_END, 7⟩ else ⟨0, 0⟩
  irql := 2
  dpcActive := true
  dpcStack := 32768 }

/-- Flags with only EXCEPTION_STACK_INVALID set. -/
def stackInvalidFlags : EFlags := ⟨false, false, false, true, false⟩

/-- Unwind state whose frame 4097 is unaligned and below the stack
bounds: used to show the target tests precede the bounds check. -/
def uBadFrame : UState :=
  ⟨4097, 8192, 12288, ⟨STATUS_UNWIND, noFlags⟩, ⟨16, 0, 0⟩, 0, 0, [], []⟩

/-- Unwind state with an in-bounds aligned frame at 4096. -/
def uGoodFrame : UState :=
  ⟨4096, 4096, 8192, ⟨STATUS_UNWIND, noFlags⟩, ⟨16, 0, 0⟩, 0, 0, [], []⟩

/-- Unwind state that has exhausted the chain. -/
def uEndFrame : UState :=
  ⟨EXCEPTION_CHAIN_END, 4096, 8192, ⟨STATUS_UNWIND, noFlags⟩, ⟨16, 0, 0⟩, 0, 0, [], []⟩

/-- Environment whose unwind handlers report CollidedUnwind naming frame
5000. -/
def envC4 : Env :=
  { envTriv with uwHandler := fun _ r c => ⟨ExceptionCollidedUnwind, r.flags, c, 5000⟩ }

/-- Environment in which every handler address is reported invalid by the
handler-pointer validator. -/
def envC10 : Env := { envTriv with validHandler := fun _ => false }

/-- Length-1 function table whose single entry is 5, with the word that
follows the table in memory holding 7: exhibits the out-of-table read of
the validator search when the biased address exceeds the maximum
entry. -/
def ftC2 : FtLookup := ⟨100, 0, 1, fun i => if i = 0 then 5 else 7⟩

/-- A well-formed sorted three-entry function table 10, 20, 30. -/
def ftW : FtLookup :=
  ⟨100, 0, 3, fun i => if i = 0 then 10 else if i = 1 then 20 else if i = 2 then 30 else 99⟩

theorem dispatchStep_ret_false (env : Env) (s s' : DState)
    (h : dispatchStep env s = DStep.stop (DOutcome.ret false s')) :
    s'.flags.stackInvalid = true ∨ s'.reg = EXCEPTION_CHAIN_END := by
  simp only [dispatchStep] at h
  split_ifs at h <;> cases h <;> simp_all [setStackInvalid, clearNestedCall]

theorem dispatchLoop_ret_false (env : Env) :
    ∀ (fuel : Nat) (s s' : DState), dispatchLoop env fuel s = DOutcome.ret false s' →
    s'.flags.stackInvalid = true ∨ s'.reg = EXCEPTION_CHAIN_END := by
  intro fuel
  induction fuel with
  | zero => intro s s' h; simp [dispatchLoop] at h
  | succ n ih =>
    intro s s' h
    simp only [dispatchLoop] at h
    cases hs : dispatchStep env s with
    | next s2 =>
      rw [hs] at h
      exact ih s2 s' h
    | stop o =>
      rw [hs] at h
      subst h
      exact dispatchStep_ret_false env s s' hs

/-- Claim C1: whenever RtlDispatchException returns false, either the
stack-invalid flag is set in the exception record flags at the moment of
return, or the walk advanced through next links all the way to
EXCEPTION_CHAIN_END; there is no false return with the flag clear and
the chain not exhausted. -/
theorem c1_dispatch_false_flag_or_chain_end (env : Env) (head low high : Nat)
    (f0 : EFlags) (fuel : Nat) (s' : DState)
    (h : rtlDispatchException env head low high f0 fuel = DOutcome.ret false s') :
    s'.flags.stackInvalid = true ∨ s'.reg = EXCEPTION_CHAIN_END :=
  dispatchLoop_ret_false env fuel _ s' h

/-- Claim C1 witness: dispatch over an empty chain returns false with
the chain exhausted. -/
theorem c1_witness :
    (⟨EXCEPTION_CHAIN_END, 0, 0, 4096, noFlags, 0, 0, []⟩ : DState).flags.stackInvalid = true ∨
    (⟨EXCEPTION_CHAIN_END, 0, 0, 4096, noFlags, 0, 0, []⟩ : DState).reg = EXCEPTION_CHAIN_END :=
  c1_dispatch_false_flag_or_chain_end envTriv EXCEPTION_CHAIN_END 0 4096 noFlags 1 _ (by decide)

/-- Claim C6: if a handler invoked by the dispatcher returns
ContinueExecution while the noncontinuable flag is set in the exception
record, the dispatcher raises a fresh exception with code
STATUS_NONCONTINUABLE_EXCEPTION, the noncontinuable flag set, zero
parameters, and the current exception record as its inner record; if the
noncontinuable flag is clear, the dispatcher stops invoking handlers
(exactly the one invocation happened) and returns true. -/
theorem c6_continue_execution_disposition (env : Env) (s : DState) (hr : HandlerResult)
    (hreg : s.reg ≠ EXCEPTION_CHAIN_END)
    (hb : ¬ boundsBad s.low s.high s.reg)
    (hv : env.validHandler (env.mem s.reg).handler = true)
    (hhr : env.excHandler s.calls s.flags = hr)
    (hd : hr.disposition = ExceptionContinueExecution) :
    (hr.newFlags.noncontinuable = true →
      ∃ s', dispatchStep env s = DStep.stop (DOutcome.raisedEx
          ⟨STATUS_NONCONTINUABLE_EXCEPTION, nonContFlags, 0, true⟩ s') ∧
        s'.calls = s.calls + 1) ∧
    (hr.newFlags.noncontinuable = false →
      ∃ s', dispatchStep env s = DStep.stop (DOutcome.ret true s') ∧
        s'.calls = s.calls + 1) := by
  simp only [dispatchStep, hhr, hd]
  rw [if_neg hreg, if_neg hb]
  simp only [hv, Bool.true_eq_false, if_false, if_pos rfl]
  by_cases hn : s.nested = s.reg <;>
    simp only [hn, if_pos, if_neg, if_true, if_false, clearNestedCall] <;>
    constructor <;> intro hnc <;>
    simp_all

/-- Claim C6 witness: one invocation on a noncontinuable record raises the
fresh noncontinuable record; one invocation on a continuable record
returns true. -/
theorem c6_witness :
    (∃ s', dispatchStep envC6 ⟨4096, 0, 4096, 8192, nonContFlags, 0, 0, []⟩ =
        DStep.stop (DOutcome.raisedEx
          ⟨STATUS_NONCONTINUABLE_EXCEPTION, nonContFlags, 0, true⟩ s') ∧
      s'.calls = 0 + 1) ∧
    (∃ s', dispatchStep envC6 ⟨4096, 0, 4096, 8192, noFlags, 0, 0, []⟩ =
        DStep.stop (DOutcome.ret true s') ∧ s'.calls = 0 + 1) :=
  ⟨(c6_continue_execution_disposition envC6 ⟨4096, 0, 4096, 8192, nonContFlags, 0, 0, []⟩
      ⟨ExceptionContinueExecution, nonContFlags, 0⟩
      (by decide) (by decide) (by decide) (by decide) (by decide)).1 rfl,
   (c6_continue_execution_disposition envC6 ⟨4096, 0, 4096, 8192, noFlags, 0, 0, []⟩
      ⟨ExceptionContinueExecution, noFlags, 0⟩
      (by decide) (by decide) (by decide) (by decide) (by decide)).2 rfl⟩

/-- Claim C5: a NestedException disposition sets the nested-call flag and
replaces the tracked nested registration only when the handler-supplied
registration pointer is strictly greater than the currently tracked one
(tracked value taken after the clear that fires when the invoked frame
equals it); the nested-call flag is cleared and the tracking reset right
after invoking the handler whose frame equals the tracked registration,
before that handler's disposition is dispatched.  In the chain
[4096, 4352, 4608] where the first handler reports NestedException
naming 4608, the flag is set for the second and third invocations and is
clear again in the true-returning final state. -/
theorem c5_nested_tracking :
    (∀ (env : Env) (s : DState) (hr : HandlerResult),
      s.reg ≠ EXCEPTION_CHAIN_END → ¬ boundsBad s.low s.high s.reg →
      env.validHandler (env.mem s.reg).handler = true →
      env.excHandler s.calls s.flags = hr →
      hr.disposition = ExceptionNestedException →
      ∃ s', dispatchStep env s = DStep.next s' ∧
        s'.flags.nestedCall = true ∧
        s'.nested = (if hr.dcReg > (if s.nested = s.reg then 0 else s.nested) then hr.dcReg
                     else if s.nested = s.reg then 0 else s.nested) ∧
        s'.reg = (env.mem s.reg).next) ∧
    dispatchLoop envC5 4 ⟨4096, 0, 4096, 8192, noFlags, 0, 0, []⟩ =
      DOutcome.ret true ⟨4608, 0, 4096, 8192, noFlags, 3, 0,
        [(4096, noFlags), (4352, nestedCallFlags), (4608, nestedCallFlags)]⟩ := by
  constructor
  · intro env s hr hreg hb hv hhr hd
    simp only [dispatchStep, hhr, hd]
    rw [if_neg hreg, if_neg hb]
    simp only [hv, Bool.true_eq_false, if_false,
      ExceptionNestedException, ExceptionContinueExecution, ExceptionContinueSearch]
    by_cases hn : s.nested = s.reg <;>
      simp_all [setNestedCall, clearNestedCall] <;>
      split_ifs <;> simp_all
  · decide

/-- Claim C5 witness: the NestedException step fact applied to the first
scenario frame, where the tracked registration is adopted from the
handler-supplied pointer 4608. -/
theorem c5_witness :
    ∃ s', dispatchStep envC5 ⟨4096, 0, 4096, 8192, noFlags, 0, 0, []⟩ = DStep.next s' ∧
      s'.flags.nestedCall = true ∧
      s'.nested = (if (4608 : Nat) > (if (0 : Nat) = 4096 then 0 else 0) then 4608
                   else if (0 : Nat) = 4096 then 0 else 0) ∧
      s'.reg = (envC5.mem 4096).next :=
  c5_nested_tracking.1 envC5 ⟨4096, 0, 4096, 8192, noFlags, 0, 0, []⟩
    ⟨ExceptionNestedException, noFlags, 4608⟩ (by decide) (by decide) (by decide) (by decide) rfl


theorem dispatchStep_subs_next (env : Env) (s s' : DState)
    (h : dispatchStep env s = DStep.next s') :
    (s'.subs = s.subs ∧ s'.low = s.low ∧ s'.high = s.high) ∨
    (s'.subs = s.subs + 1 ∧ s'.low = dpcLow env ∧ s'.high = env.dpcStack ∧
      boundsBad s.low s.high s.reg ∧ dpcOk env s.reg) := by
  simp only [dispatchStep] at h
  split_ifs at h <;> cases h <;> simp_all

theorem dispatchStep_subs_stop (env : Env) (s : DState) (o : DOutcome) (s' : DState)
    (h : dispatchStep env s = DStep.stop o) (hf : finalStateD o = some s') :
    s'.subs = s.subs := by
  simp only [dispatchStep] at h
  split_ifs at h <;> cases h <;>
    simp only [finalStateD, Option.some.injEq] at hf <;>
    (try subst hf) <;> simp_all

theorem dispatchLoop_subs_le_one (env : Env) :
    ∀ (fuel : Nat) (s : DState),
      (s.subs = 0 ∨ (s.subs = 1 ∧ s.low = dpcLow env ∧ s.high = env.dpcStack)) →
      ∀ s', finalStateD (dispatchLoop env fuel s) = some s' → s'.subs ≤ 1 := by
  intro fuel
  induction fuel with
  | zero => intro s _ s' h; simp [dispatchLoop, finalStateD] at h
  | succ n ih =>
    intro s hI s' h
    simp only [dispatchLoop] at h
    cases hs : dispatchStep env s with
    | next s2 =>
      rw [hs] at h
      refine ih s2 ?_ s' h
      rcases dispatchStep_subs_next env s s2 hs with hk | hsub
      · rcases hI with h0 | ⟨h1, h2, h3⟩
        · exact Or.inl (hk.1.trans h0)
        · exact Or.inr ⟨hk.1.trans h1, hk.2.1.trans h2, hk.2.2.trans h3⟩
      · rcases hI with h0 | ⟨h1, h2, h3⟩
        · exact Or.inr ⟨by omega, hsub.2.1, hsub.2.2.1⟩
        · exfalso
          rcases hsub with ⟨-, -, -, hbad, hok⟩
          rw [h2, h3] at hbad
          rcases hok with ⟨ha, -, -, hh, hl⟩
          rcases hbad with hx | hx | hx <;> omega
    | stop o =>
      rw [hs] at h
      have := dispatchStep_subs_stop env s o s' hs h
      omega

theorem unwindStep_subs_next (env : Env) (target : Nat) (s s' : UState)
    (h : unwindStep env target s = UStep.next s') :
    (s'.subs = s.subs ∧ s'.low = s.low ∧ s'.high = s.high) ∨
    (s'.subs = s.subs + 1 ∧ s'.low = dpcLow env ∧ s'.high = env.dpcStack ∧
      boundsBad s.low s.high s.reg ∧ dpcOk env s.reg) := by
  simp only [unwindStep] at h
  split_ifs at h <;> cases h <;> simp_all

theorem unwindStep_subs_stop (env : Env) (target : Nat) (s : UState) (o : UOutcome)
    (s' : UState)
    (h : unwindStep env target s = UStep.stop o) (hf : finalStateU o = some s') :
    s'.subs = s.subs := by
  simp only [unwindStep] at h
  split_ifs at h <;> cases h <;>
    simp only [finalStateU, Option.some.injEq] at hf <;>
    (try subst hf) <;> simp_all

theorem unwindLoop_subs_le_one (env : Env) (target : Nat) :
    ∀ (fuel : Nat) (s : UState),
      (s.subs = 0 ∨ (s.subs = 1 ∧ s.low = dpcLow env ∧ s.high = env.dpcStack)) →
      ∀ s', finalStateU (unwindLoop env target fuel s) = some s' → s'.subs ≤ 1 := by
  intro fuel
  induction fuel with
  | zero => intro s _ s' h; simp [unwindLoop, finalStateU] at h
  | succ n ih =>
    intro s hI s' h
    simp only [unwindLoop] at h
    cases hs : unwindStep env target s with
    | next s2 =>
      rw [hs] at h
      refine ih s2 ?_ s' h
      rcases unwindStep_subs_next env target s s2 hs with hk | hsub
      · rcases hI with h0 | ⟨h1, h2, h3⟩
        · exact Or.inl (hk.1.trans h0)
        · exact Or.inr ⟨hk.1.trans h1, hk.2.1.trans h2, hk.2.2.trans h3⟩
      · rcases hI with h0 | ⟨h1, h2, h3⟩
        · exact Or.inr ⟨by omega, hsub.2.1, hsub.2.2.1⟩
        · exfalso
          rcases hsub with ⟨-, -, -, hbad, hok⟩
          rw [h2, h3] at hbad
          rcases hok with ⟨ha, -, -, hh, hl⟩
          rcases hbad with hx | hx | hx <;> omega
    | stop o =>
      rw [hs] at h
      have := unwindStep_subs_stop env target s o s' hs h
      omega

/-- Claim C7: within a single call to the dispatcher or the unwind
driver, the DPC-stack substitution of the stack bounds occurs at most
once: the final state of any run records at most one substitution, since
once the bounds are the DPC region a frame failing the bounds or
alignment check can never satisfy the substitution condition again and
takes the error path instead. -/
theorem c7_dpc_substitution_at_most_once :
    (∀ (env : Env) (head low high : Nat) (f0 : EFlags) (fuel : Nat) (s' : DState),
      finalStateD (rtlDispatchException env head low high f0 fuel) = some s' →
      s'.subs ≤ 1) ∧
    (∀ (env : Env) (tf tip : Nat) (er : Option ERec)
      (rv head low high cesp crest fuel : Nat) (s' : UState),
      finalStateU (rtlUnwind env tf tip er rv head low high cesp crest fuel) = some s' →
      s'.subs ≤ 1) :=
  ⟨fun env head low high f0 fuel s' h =>
    dispatchLoop_subs_le_one env fuel _ (Or.inl rfl) s' h,
   fun env tf tip er rv head low high cesp crest fuel s' h =>
    unwindLoop_subs_le_one env tf fuel _ (Or.inl rfl) s' h⟩

/-- Claim C7 witness: a dispatch whose first frame lies on the DPC stack
substitutes the bounds exactly once and finishes with one substitution
recorded. -/
theorem c7_witness :
    (⟨4294967295, 0, 20480, 32768, noFlags, 1, 1, [(20480, noFlags)]⟩ : DState).subs ≤ 1 :=
  c7_dpc_substitution_at_most_once.1 envC7 20480 1048576 1052672 noFlags 3 _ (by decide)

/-- Claim C8 counterexample: a frame at 20482 fails only the 4-byte
alignment test (it lies inside the current bounds [20480, 32768]), the
IRQL is at DISPATCH_LEVEL, a DPC routine is active, and the frame lies
within one kernel-stack-size region below the DPC stack top; the claim
says the bounds are replaced and the iteration restarts, but the
dispatcher takes the error path: stack-invalid is set and false is
returned with no substitution recorded. -/
theorem c8_counterexample :
    envC7.irql ≥ DISPATCH_LEVEL ∧ envC7.dpcActive = true ∧
    frameHigh 20482 ≤ envC7.dpcStack ∧ 20482 ≥ dpcLow envC7 ∧
    ¬ 20482 < 20480 ∧ ¬ frameHigh 20482 > 32768 ∧ 20482 % 4 ≠ 0 ∧
    rtlDispatchException envC7 20482 20480 32768 noFlags 2 =
      DOutcome.ret false ⟨20482, 0, 20480, 32768, stackInvalidFlags, 0, 0, []⟩ := by
  decide

/-- Claim C8 amended: whenever a frame fails the primary
bounds/alignment check while the DPC conditions hold AND the frame is
4-byte aligned (dpcOk includes the alignment test, as the code does),
the stack bounds are replaced with the DPC region and the iteration
restarts without advancing the registration pointer, in both the
dispatcher and the unwind driver; frames failing the alignment test
never take the substitution. -/
theorem c8_amended_dpc_substitution :
    (∀ (env : Env) (s : DState),
      s.reg ≠ EXCEPTION_CHAIN_END → boundsBad s.low s.high s.reg → dpcOk env s.reg →
      dispatchStep env s =
        DStep.next { s with low := dpcLow env, high := env.dpcStack, subs := s.subs + 1 }) ∧
    (∀ (env : Env) (target : Nat) (s : UState),
      s.reg ≠ EXCEPTION_CHAIN_END → s.reg ≠ target → ¬(target ≠ 0 ∧ target < s.reg) →
      boundsBad s.low s.high s.reg → dpcOk env s.reg →
      unwindStep env target s =
        UStep.next { s with low := dpcLow env, high := env.dpcStack, subs := s.subs + 1 }) := by
  constructor
  · intro env s h1 h2 h3
    simp only [dispatchStep]
    rw [if_neg h1, if_pos h2, if_pos h3]
  · intro env target s h1 h2 h3 h4 h5
    simp only [unwindStep]
    rw [if_neg h1, if_neg h2, if_neg h3, if_pos h4, if_pos h5]

/-- Claim C8 witness: an aligned frame on the DPC stack takes the
substitution without advancing. -/
theorem c8_witness :
    dispatchStep envC7 ⟨20480, 0, 1048576, 1052672, noFlags, 0, 0, []⟩ =
      DStep.next ⟨20480, 0, dpcLow envC7, envC7.dpcStack, noFlags, 0, 0 + 1, []⟩ :=
  c8_amended_dpc_substitution.1 envC7 ⟨20480, 0, 1048576, 1052672, noFlags, 0, 0, []⟩
    (by decide) (by decide) (by decide)

/-- Claim C3: on every unwind iteration the target-frame test comes
first: a frame equal to the target invokes the continue system call with
the working (adjusted) context and no further handler runs; otherwise a
supplied target frame strictly below the current frame raises a
noncontinuable STATUS_INVALID_UNWIND_TARGET exception whose inner record
is the working exception record.  Neither conclusion assumes anything
about the stack bounds or the frame alignment, so both checks precede
the bounds/alignment validation. -/
theorem c3_unwind_target_tests_first (env : Env) (target : Nat) (s : UState) :
    (s.reg ≠ EXCEPTION_CHAIN_END → s.reg = target →
      unwindStep env target s = UStep.stop (UOutcome.continued s.ctx s)) ∧
    (s.reg ≠ EXCEPTION_CHAIN_END → target ≠ 0 → target < s.reg →
      unwindStep env target s = UStep.stop (UOutcome.raisedUw
        ⟨STATUS_INVALID_UNWIND_TARGET, nonContFlags, 0, true⟩ s)) := by
  constructor
  · intro h1 h2
    simp only [unwindStep]
    rw [if_neg h1, if_pos h2]
  · intro h1 h2 h3
    have hne : s.reg ≠ target := by omega
    simp only [unwindStep]
    rw [if_neg h1, if_neg hne, if_pos ⟨h2, h3⟩]

/-- Claim C3 witness: both target tests fire on a frame that is unaligned
and out of bounds, demonstrating their precedence over the bounds
check. -/
theorem c3_witness :
    unwindStep envTriv 4097 uBadFrame =
      UStep.stop (UOutcome.continued uBadFrame.ctx uBadFrame) ∧
    unwindStep envTriv 100 uBadFrame =
      UStep.stop (UOutcome.raisedUw
        ⟨STATUS_INVALID_UNWIND_TARGET, nonContFlags, 0, true⟩ uBadFrame) :=
  ⟨(c3_unwind_target_tests_first envTriv 4097 uBadFrame).1 (by decide) rfl,
   (c3_unwind_target_tests_first envTriv 100 uBadFrame).2 (by decide) (by decide) (by decide)⟩

/-- Claim C4: when an unwind handler returns ExceptionCollidedUnwind the
node just invoked is not unlinked; the registration pointer is replaced
by the dispatcher-context registration pointer, and that replacement
node is the one saved as prior, advanced past via its next link, and
unlinked.  When a handler returns ExceptionContinueSearch the invoked
node itself is saved as prior, the pointer advances to its next, and
prior is unlinked. -/
theorem c4_unwind_unlink_order (env : Env) (target : Nat) (s : UState) (hr : UHandlerResult)
    (h1 : s.reg ≠ EXCEPTION_CHAIN_END) (h2 : s.reg ≠ target)
    (h3 : ¬(target ≠ 0 ∧ target < s.reg))
    (h4 : ¬ boundsBad s.low s.high s.reg)
    (hhr : env.uwHandler s.calls s.erec s.ctx = hr) :
    (hr.disposition = ExceptionCollidedUnwind →
      ∃ s', unwindStep env target s = UStep.next s' ∧
        s'.trace = s.trace ++ [s.reg] ∧
        s'.unlinked = s.unlinked ++ [hr.dcReg] ∧
        s'.reg = (env.mem hr.dcReg).next) ∧
    (hr.disposition = ExceptionContinueSearch →
      ∃ s', unwindStep env target s = UStep.next s' ∧
        s'.trace = s.trace ++ [s.reg] ∧
        s'.unlinked = s.unlinked ++ [s.reg] ∧
        s'.reg = (env.mem s.reg).next) := by
  simp only [unwindStep, hhr]
  rw [if_neg h1, if_neg h2, if_neg h3, if_neg h4]
  constructor <;> intro hd <;>
    simp only [hd, ExceptionCollidedUnwind, ExceptionContinueSearch] <;>
    simp only [show (3 : Nat) ≠ 1 by decide, if_false, if_true, if_pos rfl, ite_true,
      ite_false, reduceIte] <;>
    exact ⟨_, rfl, rfl, rfl, rfl⟩

/-- Claim C4 witness: the collided-unwind step unlinks the replacement
node 5000, not the invoked node 4096; the continue-search step unlinks
the invoked node 4096. -/
theorem c4_witness :
    (∃ s', unwindStep envC4 0 uGoodFrame = UStep.next s' ∧
      s'.trace = [] ++ [(4096 : Nat)] ∧
      s'.unlinked = [] ++ [(5000 : Nat)] ∧
      s'.reg = (envC4.mem 5000).next) ∧
    (∃ s', unwindStep envTriv 0 uGoodFrame = UStep.next s' ∧
      s'.trace = [] ++ [(4096 : Nat)] ∧
      s'.unlinked = [] ++ [(4096 : Nat)] ∧
      s'.reg = (envTriv.mem 4096).next) :=
  ⟨(c4_unwind_unlink_order envC4 0 uGoodFrame
      ⟨ExceptionCollidedUnwind, noFlags, ⟨16, 0, 0⟩, 5000⟩
      (by decide) (by decide) (by decide) (by decide) rfl).1 rfl,
   (c4_unwind_unlink_order envTriv 0 uGoodFrame
      ⟨ExceptionContinueSearch, noFlags, ⟨16, 0, 0⟩, 0⟩
      (by decide) (by decide) (by decide) (by decide) rfl).2 rfl⟩

/-- Claim C9: when the unwind loop exhausts the chain, a target equal to
CHAIN_END invokes the continue system call with the adjusted context;
any other target (exit unwind or target not found) invokes the raise
system call with the working exception record and the adjusted context.
Both outcomes are terminal: the driver never returns normally. -/
theorem c9_unwind_chain_exhausted (env : Env) (target : Nat) (s : UState)
    (h : s.reg = EXCEPTION_CHAIN_END) :
    (target = EXCEPTION_CHAIN_END →
      unwindStep env target s = UStep.stop (UOutcome.continued s.ctx s)) ∧
    (target ≠ EXCEPTION_CHAIN_END →
      unwindStep env target s = UStep.stop (UOutcome.raisedSys s.erec s.ctx s)) := by
  constructor <;> intro ht <;> simp only [unwindStep] <;> rw [if_pos h] <;> simp [ht]

/-- Claim C9 witness: both post-loop outcomes at a chain-exhausted
state. -/
theorem c9_witness :
    unwindStep envTriv EXCEPTION_CHAIN_END uEndFrame =
      UStep.stop (UOutcome.continued uEndFrame.ctx uEndFrame) ∧
    unwindStep envTriv 0 uEndFrame =
      UStep.stop (UOutcome.raisedSys uEndFrame.erec uEndFrame.ctx uEndFrame) :=
  ⟨(c9_unwind_chain_exhausted envTriv EXCEPTION_CHAIN_END uEndFrame rfl).1 rfl,
   (c9_unwind_chain_exhausted envTriv 0 uEndFrame rfl).2 (by decide)⟩

/-- Claim C10: the unwind driver performs no handler-pointer validation:
a chain node passing the stack-bounds and alignment check has its
handler invoked even when the validator reports that handler invalid,
and whatever the disposition, the post-invocation state records the
invocation; the dispatcher, by contrast, returns false with
stack-invalid set and without invoking the handler when validation
fails. -/
theorem c10_unwind_skips_validation (env : Env) (target : Nat) (s : UState) (d : DState)
    (h1 : s.reg ≠ EXCEPTION_CHAIN_END) (h2 : s.reg ≠ target)
    (h3 : ¬(target ≠ 0 ∧ target < s.reg)) (h4 : ¬ boundsBad s.low s.high s.reg)
    (hinv : env.validHandler (env.mem s.reg).handler = false)
    (d1 : d.reg ≠ EXCEPTION_CHAIN_END) (d2 : ¬ boundsBad d.low d.high d.reg)
    (dinv : env.validHandler (env.mem d.reg).handler = false) :
    ((∃ s', unwindStep env target s = UStep.next s' ∧
        s'.trace = s.trace ++ [s.reg] ∧ s'.calls = s.calls + 1) ∨
     (∃ r s', unwindStep env target s = UStep.stop (UOutcome.raisedUw r s') ∧
        s'.trace = s.trace ++ [s.reg] ∧ s'.calls = s.calls + 1)) ∧
    dispatchStep env d =
      DStep.stop (DOutcome.ret false { d with flags := setStackInvalid d.flags }) := by
  constructor
  · simp only [unwindStep]
    rw [if_neg h1, if_neg h2, if_neg h3, if_neg h4]
    by_cases hd1 : (env.uwHandler s.calls s.erec s.ctx).disposition = ExceptionContinueSearch
    · exact Or.inl ⟨_, by rw [if_pos hd1], rfl, rfl⟩
    · by_cases hd2 :
        (env.uwHandler s.calls s.erec s.ctx).disposition = ExceptionCollidedUnwind
      · exact Or.inl ⟨_, by rw [if_neg hd1, if_pos hd2], rfl, rfl⟩
      · exact Or.inr ⟨_, _, by rw [if_neg hd1, if_neg hd2], rfl, rfl⟩
  · simp only [dispatchStep]
    rw [if_neg d1, if_neg d2]
    simp [dinv]

/-- Claim C10 witness: with every handler reported invalid, the unwind
step still invokes the handler at frame 4096, while the dispatcher step
refuses it and returns false with stack-invalid set. -/
theorem c10_witness :
    ((∃ s', unwindStep envC10 0 uGoodFrame = UStep.next s' ∧
        s'.trace = [] ++ [(4096 : Nat)] ∧ s'.calls = 0 + 1) ∨
     (∃ r s', unwindStep envC10 0 uGoodFrame = UStep.stop (UOutcome.raisedUw r s') ∧
        s'.trace = [] ++ [(4096 : Nat)] ∧ s'.calls = 0 + 1)) ∧
    dispatchStep envC10 ⟨4096, 0, 4096, 8192, noFlags, 0, 0, []⟩ =
      DStep.stop (DOutcome.ret false ⟨4096, 0, 4096, 8192, setStackInvalid noFlags, 0, 0, []⟩) :=
  c10_unwind_skips_validation envC10 0 uGoodFrame ⟨4096, 0, 4096, 8192, noFlags, 0, 0, []⟩
    (by decide) (by decide) (by decide) (by decide) rfl (by decide) (by decide) rfl

theorem int32_small (x : Nat) (h : x < 2147483648) : int32 x = (x : Int) := by
  have hx : x % U32 = x := Nat.mod_eq_of_lt (by unfold U32; omega)
  simp [int32, hx, h]

theorem bsearchGo_found (entry : Nat → Nat) (h : Nat) (n : Nat)
    (mono : ∀ i j, i < j → j < n → entry i ≤ entry j) :
    ∀ (fuel : Nat) (low high : Int) (k : Nat),
      0 ≤ low → low ≤ (k : Int) → (k : Int) ≤ high → high ≤ (n : Int) → k < n →
      entry k = h → (high + 1 - low).toNat ≤ fuel →
      bsearchGo entry h fuel low high = true := by
  intro fuel
  induction fuel with
  | zero =>
    intro low high k h0 h1 h2 h3 h4 h5 h6
    exfalso; omega
  | succ m ih =>
    intro low high k h0 h1 h2 h3 h4 h5 hfuel
    have hge : high ≥ low := le_trans h1 h2
    simp only [bsearchGo]
    rw [if_pos hge]
    set mid := (low + high).toNat / 2 with hmid
    have hmop : low ≤ (mid : Int) ∧ (mid : Int) ≤ high := by omega
    have hmidn : mid < n := by omega
    by_cases hlt : h < entry mid
    · rw [if_pos hlt]
      have hkm : k < mid := by
        by_contra hc
        push_neg at hc
        rcases Nat.eq_or_lt_of_le hc with he | hl
        · rw [he, h5] at hlt; omega
        · have := mono mid k hl h4
          omega
      exact ih low ((mid : Int) - 1) k h0 h1 (by omega) (by omega) h4 h5 (by omega)
    · by_cases hgt : entry mid < h
      · rw [if_neg hlt, if_pos hgt]
        have hkm : mid < k := by
          by_contra hc
          push_neg at hc
          rcases Nat.eq_or_lt_of_le hc with he | hl
          · rw [← he, h5] at hgt; omega
          · have := mono k mid hl hmidn
            omega
        exact ih ((mid : Int) + 1) high k (by omega) (by omega) h2 h3 h4 h5 (by omega)
      · rw [if_neg hlt, if_neg hgt]

theorem bsearchGo_absent (entry : Nat → Nat) (h : Nat) (n : Nat)
    (hn : 1 ≤ n)
    (habs : ∀ j, j < n → entry j ≠ h)
    (hmax : h < entry (n - 1)) :
    ∀ (fuel : Nat) (low high : Int),
      0 ≤ low → high ≤ (n : Int) → (high = (n : Int) → low < (n : Int)) →
      bsearchGo entry h fuel low high = false := by
  intro fuel
  induction fuel with
  | zero => intro low high _ _ _; rfl
  | succ m ih =>
    intro low high h0 h1 h2
    simp only [bsearchGo]
    by_cases hge : high ≥ low
    · rw [if_pos hge]
      set mid := (low + high).toNat / 2 with hmid
      have hmidn : mid < n := by omega
      by_cases hlt : h < entry mid
      · rw [if_pos hlt]
        exact ih low ((mid : Int) - 1) h0 (by omega) (by omega)
      · by_cases hgt : entry mid < h
        · rw [if_neg hlt, if_pos hgt]
          refine ih ((mid : Int) + 1) high (by omega) h1 ?_
          intro heq
          by_contra hc
          have hm : mid = n - 1 := by omega
          rw [hm] at hgt
          omega
        · exfalso
          exact habs mid hmidn (by omega)
    · rw [if_neg hge]

/-- Claim C2 counterexample: ftC2 is a registered, non-sentinel,
ascending-sorted table of length 1 whose only entry is 5; with the word
one past the table holding 7, the biased address 7, strictly above the
maximum entry, is reported VALID: the search starts with High equal to
the table length, reads the out-of-table word, and matches it. -/
theorem c2_counterexample :
    ftC2.tablePtr ≠ 0 ∧ ftC2.length ≠ 0 ∧
    ¬(ftC2.tablePtr = 4294967295 ∧ ftC2.length = 4294967295) ∧
    (∀ i j, i < j → j < ftC2.length → ftC2.entry i ≤ ftC2.entry j) ∧
    ftC2.entry 0 < biasedHandler ftC2 7 ∧
    rtlIsValidHandler ftC2 7 = true := by
  refine ⟨by decide, by decide, by decide, ?_, by decide, by decide⟩
  intro i j hij hj
  exfalso
  have : ftC2.length = 1 := rfl
  omega

/-- Claim C2 amended: for a registered, non-sentinel, ascending-sorted
table, a biased address equal to some entry is reported valid, and a
biased address below the minimum entry or strictly between two adjacent
entries is reported invalid; the guarantee for addresses above the
maximum entry is dropped, because the search starts with High equal to
the table length and can read one word past the table (see the
counterexample). -/
theorem c2_amended_validator (ft : FtLookup) (handler : Nat)
    (hreg : ft.tablePtr ≠ 0) (hlen0 : ft.length ≠ 0)
    (hsent : ¬(ft.tablePtr = 4294967295 ∧ ft.length = 4294967295))
    (hlen : ft.length < 2147483648)
    (mono : ∀ i j, i < j → j < ft.length → ft.entry i ≤ ft.entry j) :
    ((∃ k, k < ft.length ∧ ft.entry k = biasedHandler ft handler) →
      rtlIsValidHandler ft handler = true) ∧
    (biasedHandler ft handler < ft.entry 0 →
      rtlIsValidHandler ft handler = false) ∧
    (∀ i, i + 1 < ft.length → ft.entry i < biasedHandler ft handler →
      biasedHandler ft handler < ft.entry (i + 1) →
      rtlIsValidHandler ft handler = false) := by
  have hrw : rtlIsValidHandler ft handler =
      bsearchGo ft.entry (biasedHandler ft handler) (ft.length + 2) 0 (ft.length : Int) := by
    simp only [rtlIsValidHandler]
    rw [if_pos ⟨hreg, hlen0⟩, if_neg hsent, int32_small ft.length hlen]
  have hn : 1 ≤ ft.length := Nat.pos_of_ne_zero hlen0
  have monole : ∀ a b, a ≤ b → b < ft.length → ft.entry a ≤ ft.entry b := by
    intro a b hab hbn
    rcases Nat.eq_or_lt_of_le hab with he | hl
    · rw [he]
    · exact mono a b hl hbn
  refine ⟨?_, ?_, ?_⟩
  · rintro ⟨k, hk, he⟩
    rw [hrw]
    exact bsearchGo_found ft.entry _ ft.length mono (ft.length + 2) 0 (ft.length : Int) k
      (by omega) (by omega) (by omega) (by omega) hk he (by omega)
  · intro hlow
    rw [hrw]
    refine bsearchGo_absent ft.entry _ ft.length hn ?_ ?_ (ft.length + 2) 0 (ft.length : Int)
      (by omega) (by omega) (by omega)
    · intro j hj
      have := monole 0 j (by omega) hj
      omega
    · have := monole 0 (ft.length - 1) (by omega) (by omega)
      omega
  · intro i hi1 hgt hlt
    rw [hrw]
    refine bsearchGo_absent ft.entry _ ft.length hn ?_ ?_ (ft.length + 2) 0 (ft.length : Int)
      (by omega) (by omega) (by omega)
    · intro j hj
      by_cases hji : j ≤ i
      · have := monole j i hji (by omega); omega
      · have := monole (i + 1) j (by omega) hj; omega
    · have := monole (i + 1) (ft.length - 1) (by omega) (by omega)
      omega

theorem ftW_mono : ∀ i j, i < j → j < ftW.length → ftW.entry i ≤ ftW.entry j := by
  intro i j hij hj
  have h3 : ftW.length = 3 := rfl
  rw [h3] at hj
  interval_cases j <;> interval_cases i <;> decide

/-- Claim C2 witness: on the sorted table 10, 20, 30 the amended
validator contract reports 20 valid, 5 (below the minimum) invalid and
15 (between adjacent entries) invalid. -/
theorem c2_witness :
    rtlIsValidHandler ftW 20 = true ∧ rtlIsValidHandler ftW 5 = false ∧
    rtlIsValidHandler ftW 15 = false :=
  ⟨(c2_amended_validator ftW 20 (by decide) (by decide) (by decide) (by decide) ftW_mono).1
      ⟨1, by decide, by decide⟩,
   (c2_amended_validator ftW 5 (by decide) (by decide) (by decide) (by decide) ftW_mono).2.1
      (by decide),
   (c2_amended_validator ftW 15 (by decide) (by decide) (by decide) (by decide) ftW_mono).2.2
      0 (by decide) (by decide) (by decide)⟩
